import Mathlib

/-!
Verification of the RHDA stack-analysis workflow (`src/stackAnalysis.ts` of
fabric8-analytics-vscode-extension).

The TypeScript module is a thin async orchestration: validate the manifest
file name, authorize, open a webview panel, run the remote stack analysis
under a progress scope, write the report to disk and push it to the panel,
routing failures to an "error" panel update plus a rethrow.

Shallow embedding: every function of the module becomes a pure Lean function
from its inputs — a configuration snapshot (`Config`) and the outcomes of the
external collaborators (`Env`: authorization, the remote analysis service,
the file system) — to a trace of observable events (`List Event`) together
with the outcome of the returned promise (`Option Err`, `some e` meaning the
promise rejects with `e`, `none` meaning it resolves).
-/

/-- Errors carried by rejected promises; opaque, modelled as strings
(equality of the string models identity of the error value). -/
abbrev Err := String

/-- Observable events of one workflow run, in program order. -/
inductive Event where
  /-- `p.report({ message })` inside the progress scope. -/
  | progressReport (msg : String)
  /-- Invocation of the external `stackAnalysisService(manifestFilePath, options)`. -/
  | analysisCall (manifestFilePath : String) (options : List (String × String))
  /-- `fs.mkdirSync(dir, { recursive: true })`. -/
  | mkdirRecursive (dir : String)
  /-- `fs.writeFile(path, data, ...)` (overwrite semantics). -/
  | fileWrite (path : String) (data : String)
  /-- `DependencyReportPanel.currentPanel.doUpdatePanel(data)`. -/
  | panelUpdate (data : String)
  /-- `vscode.window.showInformationMessage(msg)`. -/
  | showInformationMessage (msg : String)
  /-- `globalConfig.authorizeRHDA(context)` is invoked. -/
  | authorize
  /-- `DependencyReportPanel.createOrShowWebviewPanel()`. -/
  | createOrShowPanel
deriving DecidableEq, Repr

/-- Snapshot of the fields of `globalConfig` read by `stackAnalysis.ts`.
All fields are strings: the configuration module populates them from the
editor's settings, whose defaults are empty strings, so "not configured"
is the empty string (the spec's "configured" means non-empty). -/
structure Config where
  telemetryId : String
  utmSource : String
  matchManifestVersions : String
  exhortMvnPath : String
  exhortNpmPath : String
  exhortGoPath : String
  exhortPython3Path : String
  exhortPip3Path : String
  exhortPythonPath : String
  exhortPipPath : String
  exhortSnykToken : String
  exhortOSSIndexUser : String
  exhortOSSIndexToken : String
  rhdaReportFilePath : String
deriving DecidableEq, Repr

/-- Outcomes of the external collaborators for one run, fixed up front:
the embedding is deterministic given `Config` and `Env`. -/
structure Env where
  /-- Outcome of `globalConfig.authorizeRHDA(context)`. -/
  authResult : Except Err Unit
  /-- Outcome of `stackAnalysisService(...)`: resolved payload or rejection. -/
  analysisResult : Except Err String
  /-- `some e` models a synchronous throw inside the progress scope, occurring
  during option-bag construction (after the first progress report and before
  the remote call is issued); `none` means no synchronous throw. -/
  syncThrow : Option Err
  /-- Result of `fs.existsSync(reportDirectoryPath)`. -/
  reportDirExists : Bool
  /-- Outcome of `fs.writeFile`: `some e` is the I/O error passed to the
  callback, `none` is success. -/
  writeResult : Option Err
deriving Repr

/-- Modelled from the spec: the missing constants module's built-in default
report file path ("falling back to a built-in default path if unset");
an arbitrary fixed non-empty path. -/
def defaultRhdaReportFilePath : String := "/tmp/redhatDependencyAnalyticsReport.html"

/-- Modelled from the spec: the "analyzing" phase message of the progress
narration, from the missing constants module. -/
def StatusMessages.WIN_ANALYZING_DEPENDENCIES : String :=
  "Analyzing application dependencies..."

/-- Modelled from the spec: the "generating report" phase message of the
progress narration, from the missing constants module. -/
def StatusMessages.WIN_GENERATING_DEPENDENCIES : String :=
  "Generating dependency analysis report..."

/-- Modelled from the spec: the "success" phase message of the progress
narration, from the missing constants module. -/
def StatusMessages.WIN_SUCCESS_DEPENDENCY_ANALYSIS : String :=
  "Successfully generated dependency analysis report"

/-- Modelled from the spec: the "failure" phase message of the progress
narration, from the missing constants module. -/
def StatusMessages.WIN_FAILURE_DEPENDENCY_ANALYSIS : String :=
  "Failed to generate dependency analysis report"

/-- The allow-list of supported manifest base file names
(`supportedFiles` in the source). -/
def supportedFiles : List String :=
  ["pom.xml", "package.json", "go.mod", "requirements.txt"]

/-- The characters of the last path component: everything after the last
slash (the accumulator holds the current component, reversed). -/
def afterLastSlash (cur : List Char) : List Char → List Char
  | [] => cur.reverse
  | c :: cs => if c = '/' then afterLastSlash [] cs else afterLastSlash (c :: cur) cs

/-- Model of Node's `path.basename`: the substring after the last `/`. -/
def basename (s : String) : String := ⟨afterLastSlash [] s.data⟩

/-- Drops characters of the reversed path up to and including the first
slash found (i.e. removes the last component of the original path). -/
def dropLastComponentRev : List Char → List Char
  | [] => []
  | c :: cs => if c = '/' then cs else dropLastComponentRev cs

/-- Model of Node's `path.dirname`: the path without its last component;
`.` when there is no slash, `/` when the only slash leads the path. -/
def dirname (s : String) : String :=
  let r := dropLastComponentRev s.data.reverse
  if r.isEmpty then (if s.data.headD ' ' = '/' then "/" else ".") else ⟨r.reverse⟩

/-- `supportedFiles.includes(name)`. -/
def isSupported (name : String) : Bool :=
  supportedFiles.any (fun f => decide (f = name))

/-- The guard `uri.fsPath && supportedFiles.includes(path.basename(uri.fsPath))`:
`uri.fsPath` is modelled as `Option String` (`none` = a JavaScript
undefined/null value); JavaScript truthiness of a string is non-emptiness, and
`&&` short-circuits, so `basename` is only ever applied to a non-empty string. -/
def isSupportedUri : Option String → Bool
  | none => false
  | some s => (!decide (s = "")) && isSupported (basename s)

/-- Stringification of `uri.fsPath` in the template literal of the
informational message (an undefined value interpolates as "undefined"). -/
def jsToString : Option String → String
  | none => "undefined"
  | some s => s

/-- The informational message `File ${uri.fsPath} is not supported!!`. -/
def unsupportedFileMsg (fsPath : Option String) : String :=
  "File " ++ jsToString fsPath ++ " is not supported!!"

/-- `updateWebviewPanel(data)`: calls `doUpdatePanel(data)` only when
`DependencyReportPanel.currentPanel` exists; otherwise a silent no-op. -/
def updateWebviewPanel (currentPanel : Bool) (data : String) : List Event :=
  if currentPanel then [Event.panelUpdate data] else []

/-- `globalConfig.rhdaReportFilePath || defaultRhdaReportFilePath`:
the configured report path when truthy (non-empty), else the default. -/
def reportFilePath (cfg : Config) : String :=
  if cfg.rhdaReportFilePath = "" then defaultRhdaReportFilePath
  else cfg.rhdaReportFilePath

/-- `writeReportToFile(data)`: resolves the destination, creates the parent
directory recursively when `existsSync` is false, then writes; the promise
rejects exactly with the error the `fs.writeFile` callback receives. -/
def writeReportToFile (cfg : Config) (env : Env) (data : String) :
    List Event × Option Err :=
  let p := reportFilePath cfg
  let dir := dirname p
  let mk : List Event :=
    if env.reportDirExists then [] else [Event.mkdirRecursive dir]
  (mk ++ [Event.fileWrite p data], env.writeResult)

/-- The option bag assembled in `executeStackAnalysis` (insertion order of
the source): ten unconditional entries, then `EXHORT_SNYK_TOKEN` when the
Snyk token is not the empty string, then the OSS-Index user/token pair when
both are not the empty string. -/
def buildOptions (cfg : Config) : List (String × String) :=
  let base : List (String × String) :=
    [("RHDA_TOKEN", cfg.telemetryId),
     ("RHDA_SOURCE", cfg.utmSource),
     ("MATCH_MANIFEST_VERSIONS", cfg.matchManifestVersions),
     ("EXHORT_MVN_PATH", cfg.exhortMvnPath),
     ("EXHORT_NPM_PATH", cfg.exhortNpmPath),
     ("EXHORT_GO_PATH", cfg.exhortGoPath),
     ("EXHORT_PYTHON3_PATH", cfg.exhortPython3Path),
     ("EXHORT_PIP3_PATH", cfg.exhortPip3Path),
     ("EXHORT_PYTHON_PATH", cfg.exhortPythonPath),
     ("EXHORT_PIP_PATH", cfg.exhortPipPath)]
  let withSnyk : List (String × String) :=
    if cfg.exhortSnykToken ≠ "" then
      base ++ [("EXHORT_SNYK_TOKEN", cfg.exhortSnykToken)]
    else base
  if cfg.exhortOSSIndexUser ≠ "" ∧ cfg.exhortOSSIndexToken ≠ "" then
    withSnyk ++ [("EXHORT_OSS_INDEX_USER", cfg.exhortOSSIndexUser),
                 ("EXHORT_OSS_INDEX_TOKEN", cfg.exhortOSSIndexToken)]
  else withSnyk

/-- Whether the option bag contains an entry under key `k`. -/
def hasKey (opts : List (String × String)) (k : String) : Bool :=
  opts.any (fun p => decide (p.1 = k))

/-- `executeStackAnalysis(manifestFilePath)`: the progress-scoped analysis.
On a synchronous throw inside the `try` the `catch` re-reports the
"analyzing" message and rejects. Otherwise: report "analyzing", build the
options, call the service; on resolution report "generating", write the
report, update the panel, report "success" and resolve; any rejection of
the `.then` chain (remote failure or write failure) reaches the chained
`.catch`, which reports "failure" and rejects with the unchanged error. -/
def executeStackAnalysis (cfg : Config) (env : Env) (currentPanel : Bool)
    (manifestFilePath : String) : List Event × Option Err :=
  match env.syncThrow with
  | some e =>
      ([Event.progressReport StatusMessages.WIN_ANALYZING_DEPENDENCIES,
        Event.progressReport StatusMessages.WIN_ANALYZING_DEPENDENCIES], some e)
  | none =>
      let pre : List Event :=
        [Event.progressReport StatusMessages.WIN_ANALYZING_DEPENDENCIES,
         Event.analysisCall manifestFilePath (buildOptions cfg)]
      match env.analysisResult with
      | Except.ok resp =>
          match writeReportToFile cfg env resp with
          | (wtr, none) =>
              (pre ++ Event.progressReport StatusMessages.WIN_GENERATING_DEPENDENCIES ::
                (wtr ++ updateWebviewPanel currentPanel resp ++
                 [Event.progressReport StatusMessages.WIN_SUCCESS_DEPENDENCY_ANALYSIS]),
               none)
          | (wtr, some e) =>
              (pre ++ Event.progressReport StatusMessages.WIN_GENERATING_DEPENDENCIES ::
                (wtr ++ [Event.progressReport StatusMessages.WIN_FAILURE_DEPENDENCY_ANALYSIS]),
               some e)
      | Except.error e =>
          (pre ++ [Event.progressReport StatusMessages.WIN_FAILURE_DEPENDENCY_ANALYSIS],
           some e)

/-- `triggerWebviewPanel(context)`: awaits authorization, then creates or
shows the webview panel (after which `currentPanel` exists). A rejection of
the authorization step propagates before the panel is created. -/
def triggerWebviewPanel (env : Env) : List Event × Option Err :=
  match env.authResult with
  | Except.error e => ([Event.authorize], some e)
  | Except.ok _ => ([Event.authorize, Event.createOrShowPanel], none)

/-- The `try { await triggerWebviewPanel; await executeStackAnalysis } catch
{ updateWebviewPanel('error'); throw }` body of `generateRHDAReport` on a
supported manifest. `panel0` is whether a panel existed on entry; after
`createOrShowWebviewPanel` the panel exists. -/
def generateRHDAReportSupported (cfg : Config) (env : Env) (panel0 : Bool)
    (s : String) : List Event × Option Err :=
  match triggerWebviewPanel env with
  | (ttr, some e) => (ttr ++ updateWebviewPanel panel0 "error", some e)
  | (ttr, none) =>
      match executeStackAnalysis cfg env true s with
      | (etr, some e) => (ttr ++ etr ++ updateWebviewPanel true "error", some e)
      | (etr, none) => (ttr ++ etr, none)

/-- `generateRHDAReport(context, uri)`: on a supported manifest run the
try/catch workflow; otherwise show the informational message and resolve. -/
def generateRHDAReport (cfg : Config) (env : Env) (panel0 : Bool)
    (fsPath : Option String) : List Event × Option Err :=
  if isSupportedUri fsPath then
    generateRHDAReportSupported cfg env panel0 (jsToString fsPath)
  else
    ([Event.showInformationMessage (unsupportedFileMsg fsPath)], none)

/-- Recognizer for panel-update events. -/
def isPanelUpdate : Event → Bool
  | Event.panelUpdate _ => true
  | _ => false

/-- Recognizer for invocations of the analysis service. -/
def isAnalysisCall : Event → Bool
  | Event.analysisCall _ _ => true
  | _ => false

/-- Recognizer for informational messages. -/
def isInfoMessage : Event → Bool
  | Event.showInformationMessage _ => true
  | _ => false

/-- `true` iff no analysis-service call occurs before the first
authorization event in the trace. -/
def authBeforeAnalysis : List Event → Bool
  | [] => true
  | Event.authorize :: _ => true
  | Event.analysisCall _ _ :: _ => false
  | _ :: tl => authBeforeAnalysis tl

/-- The contents of the file at `p` after replaying the trace's write events
over an initial contents (`none` = file absent); each write overwrites. -/
def finalFileContents (init : Option String) (tr : List Event) (p : String) :
    Option String :=
  tr.foldl
    (fun acc e =>
      match e with
      | Event.fileWrite q d => if q = p then some d else acc
      | _ => acc)
    init

/-- A sample configuration snapshot used by the witnesses: no optional
credentials configured, a custom report path with a nested directory. -/
def sampleConfig : Config :=
  { telemetryId := "tid", utmSource := "vscode", matchManifestVersions := "true",
    exhortMvnPath := "mvn", exhortNpmPath := "npm", exhortGoPath := "go",
    exhortPython3Path := "python3", exhortPip3Path := "pip3",
    exhortPythonPath := "python", exhortPipPath := "pip",
    exhortSnykToken := "", exhortOSSIndexUser := "", exhortOSSIndexToken := "",
    rhdaReportFilePath := "/tmp/a/b/r.html" }

/-- A sample environment for a fully successful run: authorization succeeds,
the remote call resolves with payload "R", the report directory is missing,
the write succeeds. -/
def sampleEnvOk : Env :=
  { authResult := Except.ok (), analysisResult := Except.ok "R",
    syncThrow := none, reportDirExists := false, writeResult := none }

/-- C1: on a successful run (supported manifest, authorization ok, remote
call resolves with payload `R`, write succeeds), the workflow's promise
resolves, the report file contains exactly `R` (overwriting any previous
content), and the panel receives exactly one update call with argument `R`. -/
theorem generateRHDAReport_success_report_file_and_single_panel_update
    (cfg : Config) (env : Env) (panel0 : Bool) (s R : String)
    (init : Option String)
    (hs : isSupportedUri (some s) = true)
    (hauth : env.authResult = Except.ok ())
    (hsync : env.syncThrow = none)
    (hres : env.analysisResult = Except.ok R)
    (hw : env.writeResult = none) :
    (generateRHDAReport cfg env panel0 (some s)).2 = none ∧
    finalFileContents init (generateRHDAReport cfg env panel0 (some s)).1
      (reportFilePath cfg) = some R ∧
    List.filter isPanelUpdate (generateRHDAReport cfg env panel0 (some s)).1 =
      [Event.panelUpdate R] := by
  cases hde : env.reportDirExists <;>
    simp [generateRHDAReport, generateRHDAReportSupported, triggerWebviewPanel,
      executeStackAnalysis, writeReportToFile, updateWebviewPanel, hs, hauth,
      hsync, hres, hw, hde, finalFileContents, isPanelUpdate, jsToString,
      List.filter_append, List.foldl_cons]

/-- Witness for C1: the successful run on `/w/pom.xml` at the sample inputs,
with previous file contents "old". -/
theorem generateRHDAReport_success_report_file_and_single_panel_update_witness :
    isSupportedUri (some "/w/pom.xml") = true ∧
    ((generateRHDAReport sampleConfig sampleEnvOk false (some "/w/pom.xml")).2 = none ∧
     finalFileContents (some "old")
       (generateRHDAReport sampleConfig sampleEnvOk false (some "/w/pom.xml")).1
       (reportFilePath sampleConfig) = some "R" ∧
     List.filter isPanelUpdate
       (generateRHDAReport sampleConfig sampleEnvOk false (some "/w/pom.xml")).1 =
       [Event.panelUpdate "R"]) :=
  ⟨by decide,
   generateRHDAReport_success_report_file_and_single_panel_update
     sampleConfig sampleEnvOk false "/w/pom.xml" "R" (some "old")
     (by decide) rfl rfl rfl rfl⟩

/-- C2: when the remote analysis call rejects with error `e` (supported
manifest, authorization ok), the panel receives exactly one update call with
the literal string "error", and the workflow's promise rejects with the very
same error value `e`, unwrapped. -/
theorem generateRHDAReport_remote_failure_error_update_and_rethrow
    (cfg : Config) (env : Env) (panel0 : Bool) (s e : String)
    (hs : isSupportedUri (some s) = true)
    (hauth : env.authResult = Except.ok ())
    (hsync : env.syncThrow = none)
    (hres : env.analysisResult = Except.error e) :
    (generateRHDAReport cfg env panel0 (some s)).2 = some e ∧
    List.filter isPanelUpdate (generateRHDAReport cfg env panel0 (some s)).1 =
      [Event.panelUpdate "error"] := by
  simp [generateRHDAReport, generateRHDAReportSupported, triggerWebviewPanel,
    executeStackAnalysis, updateWebviewPanel, hs, hauth, hsync, hres,
    isPanelUpdate, jsToString, List.filter_append]

/-- Witness for C2: the failing run on `/w/pom.xml` with remote error "E". -/
theorem generateRHDAReport_remote_failure_error_update_and_rethrow_witness :
    isSupportedUri (some "/w/pom.xml") = true ∧
    ((generateRHDAReport sampleConfig
        { sampleEnvOk with analysisResult := Except.error "E" }
        false (some "/w/pom.xml")).2 = some "E" ∧
     List.filter isPanelUpdate
       (generateRHDAReport sampleConfig
         { sampleEnvOk with analysisResult := Except.error "E" }
         false (some "/w/pom.xml")).1 = [Event.panelUpdate "error"]) :=
  ⟨by decide,
   generateRHDAReport_remote_failure_error_update_and_rethrow
     sampleConfig { sampleEnvOk with analysisResult := Except.error "E" }
     false "/w/pom.xml" "E" (by decide) rfl rfl rfl⟩

/-- C3: on a manifest whose base file name is not in the allow-list, the run
shows exactly one informational message naming the file path, never calls the
analysis service, never authorizes, and the promise resolves. -/
theorem generateRHDAReport_unsupported_file_notice_only
    (cfg : Config) (env : Env) (panel0 : Bool) (s : String)
    (hbase : isSupported (basename s) = false) :
    (generateRHDAReport cfg env panel0 (some s)).1 =
      [Event.showInformationMessage ("File " ++ s ++ " is not supported!!")] ∧
    (generateRHDAReport cfg env panel0 (some s)).2 = none ∧
    List.filter isAnalysisCall (generateRHDAReport cfg env panel0 (some s)).1 = [] ∧
    Event.authorize ∉ (generateRHDAReport cfg env panel0 (some s)).1 := by
  have hguard : isSupportedUri (some s) = false := by
    simp [isSupportedUri, hbase]
  simp [generateRHDAReport, hguard, unsupportedFileMsg, jsToString, isAnalysisCall]

/-- Witness for C3: the run on the unsupported file `/w/notes.txt`. -/
theorem generateRHDAReport_unsupported_file_notice_only_witness :
    isSupported (basename "/w/notes.txt") = false ∧
    ((generateRHDAReport sampleConfig sampleEnvOk false (some "/w/notes.txt")).1 =
      [Event.showInformationMessage ("File /w/notes.txt is not supported!!")] ∧
     (generateRHDAReport sampleConfig sampleEnvOk false (some "/w/notes.txt")).2 = none ∧
     List.filter isAnalysisCall
       (generateRHDAReport sampleConfig sampleEnvOk false (some "/w/notes.txt")).1 = [] ∧
     Event.authorize ∉
       (generateRHDAReport sampleConfig sampleEnvOk false (some "/w/notes.txt")).1) :=
  ⟨by decide,
   generateRHDAReport_unsupported_file_notice_only
     sampleConfig sampleEnvOk false "/w/notes.txt" (by decide)⟩

/-- C4: on a supported manifest, the authorization step is invoked, and in
no run does an analysis-service call precede the authorization call. -/
theorem generateRHDAReport_authorization_precedes_analysis
    (cfg : Config) (env : Env) (panel0 : Bool) (fsPath : Option String)
    (hs : isSupportedUri fsPath = true) :
    Event.authorize ∈ (generateRHDAReport cfg env panel0 fsPath).1 ∧
    authBeforeAnalysis (generateRHDAReport cfg env panel0 fsPath).1 = true := by
  obtain ⟨a, ar, st, de, wr⟩ := env
  cases a <;> cases st <;> cases ar <;> cases de <;> cases wr <;> cases panel0 <;>
    simp [generateRHDAReport, generateRHDAReportSupported, triggerWebviewPanel,
      executeStackAnalysis, writeReportToFile, updateWebviewPanel, hs,
      authBeforeAnalysis]

/-- Witness for C4: the successful sample run on `/w/pom.xml`. -/
theorem generateRHDAReport_authorization_precedes_analysis_witness :
    isSupportedUri (some "/w/pom.xml") = true ∧
    (Event.authorize ∈
       (generateRHDAReport sampleConfig sampleEnvOk false (some "/w/pom.xml")).1 ∧
     authBeforeAnalysis
       (generateRHDAReport sampleConfig sampleEnvOk false (some "/w/pom.xml")).1 = true) :=
  ⟨by decide,
   generateRHDAReport_authorization_precedes_analysis
     sampleConfig sampleEnvOk false (some "/w/pom.xml") (by decide)⟩

/-- C5: the option bag contains `EXHORT_OSS_INDEX_USER` iff it contains
`EXHORT_OSS_INDEX_TOKEN`, and both are present exactly when both the
OSS-Index user and token are configured non-empty; with only one of the two
set, neither key is included. -/
theorem buildOptions_ossIndex_pair_iff_both_configured (cfg : Config) :
    (hasKey (buildOptions cfg) "EXHORT_OSS_INDEX_USER" = true ↔
      hasKey (buildOptions cfg) "EXHORT_OSS_INDEX_TOKEN" = true) ∧
    (hasKey (buildOptions cfg) "EXHORT_OSS_INDEX_USER" = true ↔
      (cfg.exhortOSSIndexUser ≠ "" ∧ cfg.exhortOSSIndexToken ≠ "")) := by
  unfold buildOptions hasKey
  split
  · split <;> simp_all
  · split <;> simp_all

/-- C6: the option bag contains `EXHORT_SNYK_TOKEN` iff the Snyk token is
configured non-empty; an unconfigured (empty) token omits the key. -/
theorem buildOptions_snykToken_iff_nonempty (cfg : Config) :
    hasKey (buildOptions cfg) "EXHORT_SNYK_TOKEN" = true ↔
      cfg.exhortSnykToken ≠ "" := by
  unfold buildOptions hasKey
  split
  · split <;> simp_all
  · split <;> simp_all

/-- C7: `writeReportToFile` resolves the destination from the configured
report path with fallback to the built-in default when unset; when the
destination directory is missing it creates it recursively before the write,
when it exists no creation is attempted; the promise's outcome is exactly
the outcome of the underlying write (rejecting with the underlying I/O
error on failure, resolving on success). -/
theorem writeReportToFile_path_resolution_mkdir_and_error_propagation
    (cfg : Config) (env : Env) (data : String) :
    (cfg.rhdaReportFilePath ≠ "" → reportFilePath cfg = cfg.rhdaReportFilePath) ∧
    (cfg.rhdaReportFilePath = "" → reportFilePath cfg = defaultRhdaReportFilePath) ∧
    (env.reportDirExists = false →
      (writeReportToFile cfg env data).1 =
        [Event.mkdirRecursive (dirname (reportFilePath cfg)),
         Event.fileWrite (reportFilePath cfg) data]) ∧
    (env.reportDirExists = true →
      (writeReportToFile cfg env data).1 =
        [Event.fileWrite (reportFilePath cfg) data]) ∧
    (writeReportToFile cfg env data).2 = env.writeResult := by
  refine ⟨fun h => ?_, fun h => ?_, fun h => ?_, fun h => ?_, rfl⟩ <;>
    simp [reportFilePath, writeReportToFile, h]

/-- Witness for C7: a successful write with a configured nested report path
whose directory is missing. -/
theorem writeReportToFile_path_resolution_mkdir_and_error_propagation_witness :
    sampleConfig.rhdaReportFilePath ≠ "" ∧
    sampleEnvOk.reportDirExists = false ∧
    reportFilePath sampleConfig = sampleConfig.rhdaReportFilePath ∧
    (writeReportToFile sampleConfig sampleEnvOk "R").1 =
      [Event.mkdirRecursive (dirname (reportFilePath sampleConfig)),
       Event.fileWrite (reportFilePath sampleConfig) "R"] ∧
    (writeReportToFile sampleConfig sampleEnvOk "R").2 = sampleEnvOk.writeResult :=
  ⟨by decide, rfl,
   (writeReportToFile_path_resolution_mkdir_and_error_propagation
     sampleConfig sampleEnvOk "R").1 (by decide),
   (writeReportToFile_path_resolution_mkdir_and_error_propagation
     sampleConfig sampleEnvOk "R").2.2.1 rfl,
   (writeReportToFile_path_resolution_mkdir_and_error_propagation
     sampleConfig sampleEnvOk "R").2.2.2.2⟩

/-- C8: when the remote call resolves with payload `R` but the file write
rejects with `e`, the only panel update of the whole run is the "error"
sentinel (the write strictly precedes the panel update on the success path,
so the payload never reaches the panel), and the promise rejects with the
write error `e`. -/
theorem generateRHDAReport_write_failure_no_payload_update
    (cfg : Config) (env : Env) (panel0 : Bool) (s R e : String)
    (hs : isSupportedUri (some s) = true)
    (hauth : env.authResult = Except.ok ())
    (hsync : env.syncThrow = none)
    (hres : env.analysisResult = Except.ok R)
    (hw : env.writeResult = some e) :
    (generateRHDAReport cfg env panel0 (some s)).2 = some e ∧
    List.filter isPanelUpdate (generateRHDAReport cfg env panel0 (some s)).1 =
      [Event.panelUpdate "error"] ∧
    (R ≠ "error" →
      Event.panelUpdate R ∉ (generateRHDAReport cfg env panel0 (some s)).1) := by
  cases hde : env.reportDirExists <;>
    simp [generateRHDAReport, generateRHDAReportSupported, triggerWebviewPanel,
      executeStackAnalysis, writeReportToFile, updateWebviewPanel, hs, hauth,
      hsync, hres, hw, hde, isPanelUpdate, jsToString, List.filter_append]

/-- Witness for C8: payload "R" resolved remotely, write rejecting with
"EIO", at the sample inputs. -/
theorem generateRHDAReport_write_failure_no_payload_update_witness :
    isSupportedUri (some "/w/pom.xml") = true ∧
    ((generateRHDAReport sampleConfig
        { sampleEnvOk with writeResult := some "EIO" }
        false (some "/w/pom.xml")).2 = some "EIO" ∧
     List.filter isPanelUpdate
       (generateRHDAReport sampleConfig
         { sampleEnvOk with writeResult := some "EIO" }
         false (some "/w/pom.xml")).1 = [Event.panelUpdate "error"] ∧
     ("R" ≠ "error" →
       Event.panelUpdate "R" ∉
         (generateRHDAReport sampleConfig
           { sampleEnvOk with writeResult := some "EIO" }
           false (some "/w/pom.xml")).1)) :=
  ⟨by decide,
   generateRHDAReport_write_failure_no_payload_update
     sampleConfig { sampleEnvOk with writeResult := some "EIO" }
     false "/w/pom.xml" "R" "EIO" (by decide) rfl rfl rfl rfl⟩

/-- C9: on a falsy `fsPath` (undefined/null modelled as `none`, or the empty
string), the run takes the unsupported-file branch: it shows only the
informational message with that falsy path interpolated, performs no
authorization, no panel creation and no analysis call, and resolves. -/
theorem generateRHDAReport_falsy_fsPath_soft_ignore
    (cfg : Config) (env : Env) (panel0 : Bool) (fsPath : Option String)
    (hf : fsPath = none ∨ fsPath = some "") :
    (generateRHDAReport cfg env panel0 fsPath).1 =
      [Event.showInformationMessage (unsupportedFileMsg fsPath)] ∧
    (generateRHDAReport cfg env panel0 fsPath).2 = none ∧
    Event.authorize ∉ (generateRHDAReport cfg env panel0 fsPath).1 ∧
    Event.createOrShowPanel ∉ (generateRHDAReport cfg env panel0 fsPath).1 ∧
    List.filter isAnalysisCall (generateRHDAReport cfg env panel0 fsPath).1 = [] := by
  rcases hf with h | h <;> subst h <;>
    simp [generateRHDAReport, isSupportedUri, unsupportedFileMsg, jsToString,
      isAnalysisCall]

/-- Witness for C9: the run with an undefined `fsPath`. -/
theorem generateRHDAReport_falsy_fsPath_soft_ignore_witness :
    ((none : Option String) = none ∨ (none : Option String) = some "") ∧
    ((generateRHDAReport sampleConfig sampleEnvOk false none).1 =
      [Event.showInformationMessage (unsupportedFileMsg none)] ∧
     (generateRHDAReport sampleConfig sampleEnvOk false none).2 = none ∧
     Event.authorize ∉ (generateRHDAReport sampleConfig sampleEnvOk false none).1 ∧
     Event.createOrShowPanel ∉
       (generateRHDAReport sampleConfig sampleEnvOk false none).1 ∧
     List.filter isAnalysisCall
       (generateRHDAReport sampleConfig sampleEnvOk false none).1 = []) :=
  ⟨Or.inl rfl,
   generateRHDAReport_falsy_fsPath_soft_ignore
     sampleConfig sampleEnvOk false none (Or.inl rfl)⟩

/-- C10: when an error is thrown synchronously inside the progress scope
before the remote call is issued, the progress narration is the "analyzing"
message twice (the catch block re-reports "analyzing", not the failure
message, which is a different string), and the error propagates: the
promise returned by `executeStackAnalysis` rejects with it. -/
theorem executeStackAnalysis_sync_throw_reports_analyzing_and_rejects
    (cfg : Config) (env : Env) (currentPanel : Bool) (s e : String)
    (h : env.syncThrow = some e) :
    (executeStackAnalysis cfg env currentPanel s).1 =
      [Event.progressReport StatusMessages.WIN_ANALYZING_DEPENDENCIES,
       Event.progressReport StatusMessages.WIN_ANALYZING_DEPENDENCIES] ∧
    (executeStackAnalysis cfg env currentPanel s).2 = some e ∧
    StatusMessages.WIN_ANALYZING_DEPENDENCIES ≠
      StatusMessages.WIN_FAILURE_DEPENDENCY_ANALYSIS := by
  refine ⟨?_, ?_, by decide⟩ <;> simp [executeStackAnalysis, h]

/-- Witness for C10: a synchronous throw of "boom" during option-bag
construction at the sample inputs. -/
theorem executeStackAnalysis_sync_throw_reports_analyzing_and_rejects_witness :
    ({ sampleEnvOk with syncThrow := some "boom" } : Env).syncThrow = some "boom" ∧
    ((executeStackAnalysis sampleConfig
        { sampleEnvOk with syncThrow := some "boom" } true "/w/pom.xml").1 =
      [Event.progressReport StatusMessages.WIN_ANALYZING_DEPENDENCIES,
       Event.progressReport StatusMessages.WIN_ANALYZING_DEPENDENCIES] ∧
     (executeStackAnalysis sampleConfig
        { sampleEnvOk with syncThrow := some "boom" } true "/w/pom.xml").2 =
       some "boom" ∧
     StatusMessages.WIN_ANALYZING_DEPENDENCIES ≠
       StatusMessages.WIN_FAILURE_DEPENDENCY_ANALYSIS) :=
  ⟨rfl,
   executeStackAnalysis_sync_throw_reports_analyzing_and_rejects
     sampleConfig { sampleEnvOk with syncThrow := some "boom" }
     true "/w/pom.xml" "boom" rfl⟩
